import Mathlib

/-!
Shallow embedding of the weather_app property-management backend.

Source files embedded here:
- src/services/property.service.ts  (PropertyService and WeatherService)
- src/repositories/PropertyRepository.ts
- src/types/property.types.ts  (CreatePropertyInput validation decorators,
  PropertyFilter, PropertySort, SortOrder)
- src/types/weather.types.ts   (Weatherstack response shapes, WeatherData)
- src/entities/Property.ts     (Property entity)
- src/errors/custom-errors.ts  (error taxonomy)

JavaScript numbers that are only parsed and carried through (never computed
on) are modelled as `JSNum`: a rational or NaN.  Asynchronous effects are
modelled by explicit traces: the weather client takes an environment mapping
the attempt number to the outcome of the underlying axios call, and returns
the attempt count and the list of backoff waits alongside the result.
-/

namespace WeatherApp

/-- A JavaScript number as produced by `parseFloat`: a finite value, NaN,
or one of the two infinities (from the Infinity literal).  No arithmetic is
performed on these values in the embedded code paths. -/
inductive JSNum where
  | nan : JSNum
  | posInf : JSNum
  | negInf : JSNum
  | num : Rat → JSNum
  deriving DecidableEq, Repr

/-- Longest prefix of decimal digits, with the rest of the list. -/
def takeDigits : List Char → List Char × List Char
  | [] => ([], [])
  | c :: cs =>
      if c.isDigit then
        let r := takeDigits cs
        (c :: r.1, r.2)
      else ([], c :: cs)

/-- Numeric value of a digit list, most significant first. -/
def digitsVal (ds : List Char) : Nat :=
  ds.foldl (fun a c => a * 10 + (c.toNat - 48)) 0

/-- Optional leading sign of a number literal. -/
def stripSign : List Char → Int × List Char
  | '-' :: r => (-1, r)
  | '+' :: r => (1, r)
  | r => (1, r)

/-- Optional fraction part: the digits after a leading dot. -/
def fracDigits : List Char → List Char × List Char
  | '.' :: r => takeDigits r
  | r => ([], r)

/-- Optional exponent part: e or E, an optional sign and digits; an
exponent marker not followed by a digit is ignored. -/
def expValue : List Char → Int
  | c :: r =>
      if c = 'e' ∨ c = 'E' then
        let sr : Int × List Char :=
          match r with
          | '-' :: r2 => (-1, r2)
          | '+' :: r2 => (1, r2)
          | r2 => (1, r2)
        let eds := takeDigits sr.2
        if eds.1 = [] then 0 else sr.1 * (digitsVal eds.1 : Int)
      else 0
  | [] => 0

/-- The characters of the JavaScript Infinity literal. -/
def infinityLit : List Char := ['I', 'n', 'f', 'i', 'n', 'i', 't', 'y']

/-- The body of `parseFloat` after whitespace and sign handling: an
Infinity literal gives the signed infinity; otherwise integer digits, an
optional fraction and an optional exponent are read, and if no digit is
found in the mantissa the result is NaN. -/
def parseFloatChars (sgn : Int) (rest : List Char) : JSNum :=
  if rest.take 8 = infinityLit then
    if sgn < 0 then JSNum.negInf else JSNum.posInf
  else
    let p1 := takeDigits rest
    let p2 := fracDigits p1.2
    if p1.1 = [] ∧ p2.1 = [] then JSNum.nan
    else
      let mant : Rat :=
        (digitsVal p1.1 : Rat) + (digitsVal p2.1 : Rat) / ((10 : Rat) ^ p2.1.length)
      JSNum.num ((sgn : Rat) * mant * (10 : Rat) ^ expValue p2.2)

/-- Model of JavaScript `parseFloat`: skip leading whitespace, read an
optional sign, then either the Infinity literal or a decimal mantissa with
an optional exponent; with no numeric start the result is NaN. -/
def parseFloat (s : String) : JSNum :=
  let cs0 := s.data.dropWhile (fun c => c.isWhitespace)
  let sr := stripSign cs0
  parseFloatChars sr.1 sr.2

/-- No start of a number in the given characters: not the Infinity
literal, no leading digit, and no leading dot followed by a digit. -/
def noNumericStart (cs : List Char) : Bool :=
  cs.take 8 != infinityLit &&
  (match cs with
   | c :: _ => !c.isDigit
   | [] => true) &&
  (match cs with
   | '.' :: c :: _ => !c.isDigit
   | _ => true)

/-- Stated from the amended claim: after optional leading whitespace and
an optional sign, the string offers no start of a number: neither a digit,
nor a dot followed by a digit, nor the Infinity literal. -/
def NoNumericStart (s : String) : Bool :=
  noNumericStart ((stripSign (s.data.dropWhile (fun c => c.isWhitespace))).2)

/-- Stated from claim C10 (for its counterexample): the string as a whole
is a decimal number: an optional sign, integer digits, and an optional
fraction, with nothing following. -/
def isWholeDecimalNumber (s : String) : Bool :=
  let sr := stripSign s.data
  let p1 := takeDigits sr.2
  match p1.2 with
  | [] => p1.1 != []
  | '.' :: r =>
      let p2 := takeDigits r
      p1.1 != [] && p2.1 != [] && p2.2 == []
  | _ => false

/-- The fields of the Weatherstack `location` block consumed by the code
(`parseResponse` reads only `lat` and `lon`, both strings in the API). -/
structure WeatherstackLocation where
  lat : String
  lon : String
  deriving DecidableEq, Repr

/-- The fields of the Weatherstack `current` block consumed by
`parseResponse`. -/
structure WeatherstackCurrent where
  observation_time : String
  temperature : Int
  weather_descriptions : List String
  wind_speed : Int
  humidity : Int
  feelslike : Int
  deriving DecidableEq, Repr

/-- A Weatherstack response body; `location` and `current` may be absent,
which `makeAPIRequest` treats as a malformed response. -/
structure WeatherstackResponse where
  location : Option WeatherstackLocation
  current : Option WeatherstackCurrent
  deriving DecidableEq, Repr

/-- IValidationErrorDetail: one entry per invalid property, with the
constraint-name/message pairs from class-validator. -/
structure ValidationErrorDetail where
  property : String
  constraints : List (String × String)
  value : String
  deriving DecidableEq, Repr

/-- The error taxonomy of custom-errors.ts, plus the two transport-level
error shapes (axios errors with or without an HTTP status, and non-axios
throws) that the weather client classifies. -/
inductive SvcError where
  | validationError (message : String) (details : List ValidationErrorDetail)
  | notFoundError (message : String)
  | weatherAPIError (message : String) (statusCode : Option Nat) (attempts : Option Nat)
  | axiosError (message : String) (status : Option Nat)
  | genericError (message : String)
  deriving DecidableEq, Repr

/-- `error.message` of an embedded error. -/
def errMessage : SvcError → String
  | .validationError m _ => m
  | .notFoundError m => m
  | .weatherAPIError m _ _ => m
  | .axiosError m _ => m
  | .genericError m => m

/-- Outcome of one underlying `axios.get` call (one lookup attempt):
HTTP 200 with a parsed body, a non-200 status rejected by `validateStatus`
(an axios error carrying `response.status`), a network-level fault such as
a timeout (an axios error with no response), or a non-axios throw. -/
inductive AxiosOutcome where
  | ok (resp : WeatherstackResponse)
  | httpStatus (status : Nat) (message : String)
  | network (message : String)
  | other (message : String)
  deriving DecidableEq, Repr

/-- WeatherService.makeAPIRequest: performs the axios call for the given
attempt and rejects a 200 body missing the `location` or `current` block
with `WeatherAPIError("Invalid response from Weatherstack API")`. -/
def makeAPIRequest (env : Nat → AxiosOutcome) (attempt : Nat) :
    Except SvcError (WeatherstackLocation × WeatherstackCurrent) :=
  match env attempt with
  | .ok resp =>
      match resp.location, resp.current with
      | some loc, some cur => .ok (loc, cur)
      | _, _ => .error (.weatherAPIError "Invalid response from Weatherstack API" none none)
  | .httpStatus s msg => .error (.axiosError msg (some s))
  | .network msg => .error (.axiosError msg none)
  | .other msg => .error (.genericError msg)

/-- WeatherService.shouldStopRetrying: non-axios errors stop the retry loop
(returning true, so the caller rethrows the original error); axios errors
with a 4xx response status throw a `WeatherAPIError` carrying the status;
every other axios error is retryable (returns false). -/
def shouldStopRetrying (error : SvcError) : Except SvcError Bool :=
  match error with
  | .axiosError msg status =>
      match status with
      | some s =>
          if 400 ≤ s ∧ s < 500 then
            .error (.weatherAPIError ("Failed to fetch weather data: " ++ msg) (some s) none)
          else .ok false
      | none => .ok false
  | _ => .ok true

/-- The weatherData payload extracted from a response (IWeatherData). -/
structure WeatherData where
  temperature : Int
  weather_descriptions : List String
  humidity : Int
  wind_speed : Int
  observation_time : String
  feelslike : Int
  deriving DecidableEq, Repr

/-- Result of a successful fetch: weather payload plus coordinates. -/
structure ParsedWeather where
  weatherData : WeatherData
  lat : JSNum
  long : JSNum
  deriving DecidableEq, Repr

/-- WeatherService.parseResponse: copy the six weather fields and parse
`location.lat` / `location.lon` with `parseFloat`. -/
def parseResponse (loc : WeatherstackLocation) (cur : WeatherstackCurrent) : ParsedWeather :=
  { weatherData :=
      { temperature := cur.temperature
        weather_descriptions := cur.weather_descriptions
        humidity := cur.humidity
        wind_speed := cur.wind_speed
        observation_time := cur.observation_time
        feelslike := cur.feelslike }
    lat := parseFloat loc.lat
    long := parseFloat loc.lon }

/-- `this.maxRetries` of WeatherService. -/
def maxRetries : Nat := 3

/-- Observable outcome of `fetchWeatherData`: the returned value or thrown
error, the number of lookup attempts issued, and the backoff waits (in ms,
in order) performed between attempts. -/
structure FetchOutcome where
  result : Except SvcError ParsedWeather
  attempts : Nat
  waits : List Nat
  deriving Repr

/-- The retry loop of WeatherService.fetchWeatherData, recursing on the
number of remaining iterations; `attempt` is the 1-based loop counter and
`lastErr` the message of the last caught error.  After the loop a
`WeatherAPIError` carrying `maxRetries` and the last message is thrown.
`waitBeforeRetry(attempt)` waits `1000 * attempt` ms and is called only
when `attempt < maxRetries`. -/
def fetchAux (env : Nat → AxiosOutcome) : Nat → Nat → Option String → FetchOutcome
  | 0, _, lastErr =>
      { result := .error (.weatherAPIError
          ("Failed to fetch weather data after " ++ toString maxRetries ++
            " attempts: " ++ lastErr.getD "undefined")
          none (some maxRetries))
        attempts := 0
        waits := [] }
  | remaining + 1, attempt, _ =>
      match makeAPIRequest env attempt with
      | .ok lc => { result := .ok (parseResponse lc.1 lc.2), attempts := 1, waits := [] }
      | .error e =>
          match shouldStopRetrying e with
          | .error e2 => { result := .error e2, attempts := 1, waits := [] }
          | .ok true => { result := .error e, attempts := 1, waits := [] }
          | .ok false =>
              let rest := fetchAux env remaining (attempt + 1) (some (errMessage e))
              if attempt < maxRetries then
                { result := rest.result
                  attempts := rest.attempts + 1
                  waits := 1000 * attempt :: rest.waits }
              else
                { result := rest.result, attempts := rest.attempts + 1, waits := rest.waits }

/-- WeatherService.fetchWeatherData: up to `maxRetries` attempts starting
at attempt 1 with no previous error. -/
def fetchWeatherData (env : Nat → AxiosOutcome) : FetchOutcome :=
  fetchAux env maxRetries 1 none

/-- An attempt outcome the retry loop treats as transient (retryable):
an axios error with no response, or with a status outside 400..499. -/
def transient : AxiosOutcome → Bool
  | .network _ => true
  | .httpStatus s _ => !(decide (400 ≤ s) && decide (s < 500))
  | _ => false

/-- An attempt outcome in the client class: an HTTP status in 400..499, or
a 200 response missing the location or current block. -/
def clientClass : AxiosOutcome → Bool
  | .httpStatus s _ => decide (400 ≤ s) && decide (s < 500)
  | .ok resp => resp.location.isNone || resp.current.isNone
  | _ => false

/-- The error with which the loop aborts on a client-class outcome. -/
def clientError : AxiosOutcome → SvcError
  | .httpStatus s m => .weatherAPIError ("Failed to fetch weather data: " ++ m) (some s) none
  | _ => .weatherAPIError "Invalid response from Weatherstack API" none none

/-- Message of the error raised by `makeAPIRequest` for a failing outcome. -/
def outcomeMessage : AxiosOutcome → String
  | .ok _ => "Invalid response from Weatherstack API"
  | .httpStatus _ m => m
  | .network m => m
  | .other m => m

/-- The Property entity: `weatherData`, `lat` and `long` are nullable
columns; `id` and `createdAt` are generated at insert time. -/
structure Property where
  id : String
  street : String
  city : String
  state : String
  zipCode : String
  weatherData : Option WeatherData
  lat : Option JSNum
  long : Option JSNum
  createdAt : Nat
  deriving DecidableEq, Repr

/-- CreatePropertyInput: the four input fields (all typed strings). -/
structure CreatePropertyInput where
  street : String
  city : String
  state : String
  zipCode : String
  deriving DecidableEq, Repr

/-- An uppercase ASCII letter, as matched by the [A-Z] character class. -/
def isUpperLetter (c : Char) : Bool :=
  decide ('A' ≤ c) && decide (c ≤ 'Z')

/-- The regex test for the state field: ^[A-Z]\x7b2\x7d$. -/
def matchesTwoUpper (s : String) : Bool :=
  s.length == 2 && s.data.all isUpperLetter

/-- The regex test for the zip field: five decimal digits. -/
def matchesFiveDigits (s : String) : Bool :=
  s.length == 5 && s.data.all (fun c => c.isDigit)

/-- Constraint violations of the street field.  The IsString decorator
always passes for a string-typed value; IsNotEmpty fails exactly on the
empty string. -/
def streetConstraints (s : String) : List (String × String) :=
  if s = "" then [("isNotEmpty", "Street is required")] else []

/-- Constraint violations of the city field. -/
def cityConstraints (s : String) : List (String × String) :=
  if s = "" then [("isNotEmpty", "City is required")] else []

/-- Constraint violations of the state field: Length(2,2) and the
uppercase-letters regex are checked independently and both reported. -/
def stateConstraints (s : String) : List (String × String) :=
  (if s.length = 2 then []
   else [("isLength", "State must be a 2-letter abbreviation")]) ++
  (if matchesTwoUpper s then []
   else [("matches", "State must be uppercase letters (e.g., AZ)")])

/-- Constraint violations of the zipCode field: Length(5,5) and the
digits-only regex are checked independently and both reported. -/
def zipConstraints (s : String) : List (String × String) :=
  (if s.length = 5 then []
   else [("isLength", "Zip code must be 5 digits")]) ++
  (if matchesFiveDigits s then []
   else [("matches", "Zip code must contain only digits")])

/-- The class-validator result on a CreatePropertyInput instance: one
ValidationError entry per property with a non-empty constraint set, in
property declaration order. -/
def fieldErrors (input : CreatePropertyInput) : List ValidationErrorDetail :=
  (let c := streetConstraints input.street
   if c = [] then [] else [⟨"street", c, input.street⟩]) ++
  (let c := cityConstraints input.city
   if c = [] then [] else [⟨"city", c, input.city⟩]) ++
  (let c := stateConstraints input.state
   if c = [] then [] else [⟨"state", c, input.state⟩]) ++
  (let c := zipConstraints input.zipCode
   if c = [] then [] else [⟨"zipCode", c, input.zipCode⟩])

/-- PropertyService.validate: if any errors exist, throw a ValidationError
whose message joins each field's constraint messages with ", " and the
fields with "; ", and whose details list every failing field. -/
def validateInput (input : CreatePropertyInput) : Except SvcError Unit :=
  let errors := fieldErrors input
  if errors = [] then .ok ()
  else
    let errorMessages :=
      String.intercalate "; "
        (errors.map (fun err => String.intercalate ", " (err.constraints.map Prod.snd)))
    .error (.validationError ("Validation failed: " ++ errorMessages) errors)

/-- PropertyService.buildFullAddress. -/
def buildFullAddress (input : CreatePropertyInput) : String :=
  input.street ++ ", " ++ input.city ++ ", " ++ input.state ++ " " ++ input.zipCode

/-- The Partial Property assembled by PropertyService.buildPropertyData. -/
structure PropertyData where
  street : String
  city : String
  state : String
  zipCode : String
  weatherData : WeatherData
  lat : JSNum
  long : JSNum
  deriving DecidableEq, Repr

/-- PropertyService.buildPropertyData. -/
def buildPropertyData (input : CreatePropertyInput) (weatherData : WeatherData)
    (lat : JSNum) (long : JSNum) : PropertyData :=
  { street := input.street
    city := input.city
    state := input.state
    zipCode := input.zipCode
    weatherData := weatherData
    lat := lat
    long := long }

/-- PropertyRepository.create: a single insert of the assembled data with a
generated id and creation timestamp; returns the saved record and the new
store contents. -/
def repoCreate (store : List Property) (d : PropertyData) (newId : String) (now : Nat) :
    Property × List Property :=
  let p : Property :=
    { id := newId
      street := d.street
      city := d.city
      state := d.state
      zipCode := d.zipCode
      weatherData := some d.weatherData
      lat := some d.lat
      long := some d.long
      createdAt := now }
  (p, store ++ [p])

/-- PropertyRepository.findById: `findOne` on the id column. -/
def repoFindById (store : List Property) (id : String) : Option Property :=
  store.find? (fun p => p.id = id)

/-- PropertyRepository.delete: delete by id, reporting whether any row was
affected, together with the new store contents. -/
def repoDelete (store : List Property) (id : String) : Bool × List Property :=
  (store.any (fun p => p.id = id), store.filter (fun p => ¬(p.id = id)))

/-- Observable outcome of PropertyService.createProperty: the returned
record or thrown error, the store after the call, the address strings sent
to the weather client, and the number of repository create calls issued. -/
structure CreateOutcome where
  result : Except SvcError Property
  store : List Property
  weatherCalls : List String
  createCalls : Nat
  deriving Repr

/-- PropertyService.createProperty: validate, compose the address, fetch
weather through the injected client, build the record and persist it.  The
weather client is the injected dependency, abstracted as a function from
the address to a fetch result. -/
def createProperty (weather : String → Except SvcError ParsedWeather)
    (store : List Property) (input : CreatePropertyInput)
    (newId : String) (now : Nat) : CreateOutcome :=
  match validateInput input with
  | .error e => { result := .error e, store := store, weatherCalls := [], createCalls := 0 }
  | .ok _ =>
      let fullAddress := buildFullAddress input
      match weather fullAddress with
      | .error e =>
          { result := .error e, store := store, weatherCalls := [fullAddress], createCalls := 0 }
      | .ok pw =>
          let created := repoCreate store (buildPropertyData input pw.weatherData pw.lat pw.long)
            newId now
          { result := .ok created.1
            store := created.2
            weatherCalls := [fullAddress]
            createCalls := 1 }

/-- JavaScript String.prototype.trim over the character list: drop
whitespace from both ends. -/
def jsTrim (s : String) : String :=
  ⟨(((s.data.dropWhile (fun c => c.isWhitespace)).reverse.dropWhile
      (fun c => c.isWhitespace)).reverse)⟩

/-- PropertyService.validateId: reject a missing or whitespace-only id
before any repository access. -/
def validateId (id : String) : Except SvcError Unit :=
  if id = "" ∨ jsTrim id = "" then .error (.validationError "Property ID is required" [])
  else .ok ()

/-- Observable outcome of PropertyService.getPropertyById: the result and
the ids looked up in the repository. -/
structure QueryOutcome where
  result : Except SvcError Property
  lookups : List String
  deriving Repr

/-- PropertyService.getPropertyById: validate the id, then
ensurePropertyExists (findById, NotFoundError when absent). -/
def getPropertyById (store : List Property) (id : String) : QueryOutcome :=
  match validateId id with
  | .error e => { result := .error e, lookups := [] }
  | .ok _ =>
      match repoFindById store id with
      | none =>
          { result := .error (.notFoundError ("Property with ID " ++ id ++ " not found"))
            lookups := [id] }
      | some p => { result := .ok p, lookups := [id] }

/-- Observable outcome of PropertyService.deleteProperty: the result, the
store after the call, the ids looked up, and the ids for which a repository
delete was issued. -/
structure DeleteOutcome where
  result : Except SvcError Bool
  store : List Property
  lookups : List String
  deletes : List String
  deriving Repr

/-- PropertyService.deleteProperty: validate the id, ensure the property
exists (findById, NotFoundError when absent), then issue the delete. -/
def deleteProperty (store : List Property) (id : String) : DeleteOutcome :=
  match validateId id with
  | .error e => { result := .error e, store := store, lookups := [], deletes := [] }
  | .ok _ =>
      match repoFindById store id with
      | none =>
          { result := .error (.notFoundError ("Property with ID " ++ id ++ " not found"))
            store := store
            lookups := [id]
            deletes := [] }
      | some _ =>
          let d := repoDelete store id
          { result := .ok d.1, store := d.2, lookups := [id], deletes := [id] }

/-- PropertyFilter: optional equality filters. -/
structure PropertyFilter where
  city : Option String := none
  state : Option String := none
  zipCode : Option String := none
  deriving DecidableEq, Repr

/-- SortOrder enum. -/
inductive SortOrder where
  | ASC
  | DESC
  deriving DecidableEq, Repr

/-- PropertySort: optional direction on createdAt. -/
structure PropertySort where
  createdAt : Option SortOrder := none
  deriving DecidableEq, Repr

/-- PropertyRepository.applyFilters: each `if (filter.field)` guard is
JavaScript truthiness on an optional string, so a field participates only
when present and non-empty; the andWhere clauses conjoin. -/
def matchesFilter (filter : Option PropertyFilter) (p : Property) : Bool :=
  match filter with
  | none => true
  | some f =>
      (match f.city with
       | some c => if c = "" then true else p.city == c
       | none => true) &&
      (match f.state with
       | some st => if st = "" then true else p.state == st
       | none => true) &&
      (match f.zipCode with
       | some z => if z = "" then true else p.zipCode == z
       | none => true)

/-- PropertyRepository.applySorting: `sort?.createdAt` when present,
otherwise the default SortOrder.DESC. -/
def sortDirection (sort : Option PropertySort) : SortOrder :=
  match sort with
  | some s =>
      match s.createdAt with
      | some d => d
      | none => SortOrder.DESC
  | none => SortOrder.DESC

/-- The ORDER BY on property.createdAt, modelled as a sort of the row list
in the requested direction. -/
def applySorting (sort : Option PropertySort) (ps : List Property) : List Property :=
  match sortDirection sort with
  | SortOrder.ASC => List.insertionSort (fun a b => a.createdAt ≤ b.createdAt) ps
  | SortOrder.DESC => List.insertionSort (fun a b => b.createdAt ≤ a.createdAt) ps

/-- PropertyRepository.findAll: apply the filters, then the sort. -/
def findAll (store : List Property) (filter : Option PropertyFilter)
    (sort : Option PropertySort) : List Property :=
  applySorting sort (store.filter (matchesFilter filter))

/-- A store-mutating service operation: a create (with its injected weather
client and generated id/timestamp) or a delete. -/
inductive StoreOp where
  | create (weather : String → Except SvcError ParsedWeather)
      (input : CreatePropertyInput) (newId : String) (now : Nat)
  | delete (id : String)

/-- Effect of one service operation on the store. -/
def applyOp (store : List Property) : StoreOp → List Property
  | .create w input newId now => (createProperty w store input newId now).store
  | .delete id => (deleteProperty store id).store

/-- Store contents after a sequence of service operations. -/
def runOps (store : List Property) (ops : List StoreOp) : List Property :=
  ops.foldl applyOp store

/-- The paired-fields invariant of a record: the weather snapshot is
present exactly when each coordinate is. -/
def IntactRecord (p : Property) : Prop :=
  (p.weatherData.isSome = p.lat.isSome) ∧ (p.weatherData.isSome = p.long.isSome)

/-- Stated from spec section 3: street is a non-empty string. -/
def SpecStreetOK (s : String) : Prop := s ≠ ""

/-- Stated from spec section 3: city is a non-empty string. -/
def SpecCityOK (s : String) : Prop := s ≠ ""

/-- Stated from spec section 3: state is exactly 2 uppercase ASCII letters. -/
def SpecStateOK (s : String) : Prop :=
  s.length = 2 ∧ ∀ c ∈ s.data, 'A' ≤ c ∧ c ≤ 'Z'

/-- Stated from spec section 3: zipCode is exactly 5 ASCII digits. -/
def SpecZipOK (s : String) : Prop :=
  s.length = 5 ∧ ∀ c ∈ s.data, c.isDigit = true

/-- Stated from spec section 3: all four field rules hold. -/
def SpecValidInput (input : CreatePropertyInput) : Prop :=
  SpecStreetOK input.street ∧ SpecCityOK input.city ∧
    SpecStateOK input.state ∧ SpecZipOK input.zipCode

end WeatherApp

namespace WeatherApp

theorem fetchAux_attempts_le (env : Nat → AxiosOutcome) :
    ∀ (r attempt : Nat) (le : Option String), (fetchAux env r attempt le).attempts ≤ r := by
  intro r
  induction r with
  | zero => intro attempt le; simp [fetchAux]
  | succ n ih =>
      intro attempt le
      unfold fetchAux
      cases hreq : makeAPIRequest env attempt with
      | ok lc => simp
      | error e =>
          cases hstop : shouldStopRetrying e with
          | error e2 => simp [hstop]
          | ok b =>
              cases b with
              | true => simp [hstop]
              | false =>
                  by_cases hlt : attempt < maxRetries <;>
                    simp [hstop, hlt, Nat.succ_le_succ (ih (attempt + 1) _)]

theorem fetchAux_transient_step (env : Nat → AxiosOutcome) (r attempt : Nat) (le : Option String)
    (h : transient (env attempt) = true) (hlt : attempt < maxRetries) :
    fetchAux env (r + 1) attempt le =
      { result := (fetchAux env r (attempt + 1) (some (outcomeMessage (env attempt)))).result
        attempts := (fetchAux env r (attempt + 1) (some (outcomeMessage (env attempt)))).attempts + 1
        waits :=
          1000 * attempt ::
            (fetchAux env r (attempt + 1) (some (outcomeMessage (env attempt)))).waits } := by
  cases henv : env attempt with
  | ok resp => rw [henv] at h; simp [transient] at h
  | other m => rw [henv] at h; simp [transient] at h
  | network m =>
      simp [fetchAux, makeAPIRequest, henv, shouldStopRetrying, errMessage, outcomeMessage, hlt]
  | httpStatus s m =>
      rw [henv] at h
      simp only [transient, Bool.not_eq_true', Bool.and_eq_false_iff, decide_eq_false_iff_not] at h
      have hs : ¬(400 ≤ s ∧ s < 500) := by rcases h with h | h <;> omega
      simp [fetchAux, makeAPIRequest, henv, shouldStopRetrying, hs, errMessage, outcomeMessage, hlt]

theorem fetchAux_transient_last (env : Nat → AxiosOutcome) (r attempt : Nat) (le : Option String)
    (h : transient (env attempt) = true) (hge : ¬ attempt < maxRetries) :
    fetchAux env (r + 1) attempt le =
      { result := (fetchAux env r (attempt + 1) (some (outcomeMessage (env attempt)))).result
        attempts := (fetchAux env r (attempt + 1) (some (outcomeMessage (env attempt)))).attempts + 1
        waits := (fetchAux env r (attempt + 1) (some (outcomeMessage (env attempt)))).waits } := by
  cases henv : env attempt with
  | ok resp => rw [henv] at h; simp [transient] at h
  | other m => rw [henv] at h; simp [transient] at h
  | network m =>
      simp [fetchAux, makeAPIRequest, henv, shouldStopRetrying, errMessage, outcomeMessage, hge]
  | httpStatus s m =>
      rw [henv] at h
      simp only [transient, Bool.not_eq_true', Bool.and_eq_false_iff, decide_eq_false_iff_not] at h
      have hs : ¬(400 ≤ s ∧ s < 500) := by rcases h with h | h <;> omega
      simp [fetchAux, makeAPIRequest, henv, shouldStopRetrying, hs, errMessage, outcomeMessage, hge]

theorem fetchAux_client_abort (env : Nat → AxiosOutcome) (r attempt : Nat) (le : Option String)
    (h : clientClass (env attempt) = true) :
    fetchAux env (r + 1) attempt le =
      { result := .error (clientError (env attempt)), attempts := 1, waits := [] } := by
  cases henv : env attempt with
  | network m => rw [henv] at h; simp [clientClass] at h
  | other m => rw [henv] at h; simp [clientClass] at h
  | httpStatus s m =>
      rw [henv] at h
      simp only [clientClass, Bool.and_eq_true, decide_eq_true_eq] at h
      simp [fetchAux, makeAPIRequest, henv, shouldStopRetrying, h, clientError]
  | ok resp =>
      rw [henv] at h
      simp only [clientClass, Bool.or_eq_true, Option.isNone_iff_eq_none] at h
      cases hloc : resp.location with
      | none => simp [fetchAux, makeAPIRequest, henv, hloc, shouldStopRetrying, clientError]
      | some loc =>
          cases hcur : resp.current with
          | none => simp [fetchAux, makeAPIRequest, henv, hloc, hcur, shouldStopRetrying, clientError]
          | some cur =>
              rw [hloc, hcur] at h
              simp at h

/-- C2: fetchWeatherData issues at most 3 lookup attempts in total; after a
retryable failure of attempt n (n < 3) it waits exactly 1000ms * n before
attempt n+1 (1000ms after attempt 1, 2000ms after attempt 2, and no wait
after the final attempt: linear backoff); and when all 3 attempts fail
transiently it raises the WeatherAPIError carrying the attempt count 3 and
the last underlying error message. -/
theorem fetchWeatherData_retry_schedule :
    (∀ env : Nat → AxiosOutcome, (fetchWeatherData env).attempts ≤ 3) ∧
    (∀ env : Nat → AxiosOutcome,
      (∀ k, 1 ≤ k → k ≤ 3 → transient (env k) = true) →
      (fetchWeatherData env).attempts = 3 ∧
      (fetchWeatherData env).waits = [1000 * 1, 1000 * 2] ∧
      (fetchWeatherData env).result = .error (.weatherAPIError
        ("Failed to fetch weather data after 3 attempts: " ++ outcomeMessage (env 3))
        none (some 3))) := by
  constructor
  · intro env
    exact fetchAux_attempts_le env maxRetries 1 none
  · intro env hT
    have h1 := hT 1 (by omega) (by omega)
    have h2 := hT 2 (by omega) (by omega)
    have h3 := hT 3 (by omega) (by omega)
    have e1 := fetchAux_transient_step env 2 1 none h1 (by decide)
    have e2 := fetchAux_transient_step env 1 2 (some (outcomeMessage (env 1))) h2 (by decide)
    have e3 := fetchAux_transient_last env 0 3 (some (outcomeMessage (env 2))) h3 (by decide)
    norm_num at e1 e2 e3
    have e4 : fetchAux env 0 4 (some (outcomeMessage (env 3))) =
        { result := .error (.weatherAPIError
            ("Failed to fetch weather data after 3 attempts: " ++ outcomeMessage (env 3))
            none (some 3))
          attempts := 0
          waits := [] } := rfl
    have key : fetchWeatherData env =
        { result := .error (.weatherAPIError
            ("Failed to fetch weather data after 3 attempts: " ++ outcomeMessage (env 3))
            none (some 3))
          attempts := 3
          waits := [1000, 2000] } := by
      show fetchAux env 3 1 none = _
      rw [e1, e2, e3, e4]
    rw [key]
    norm_num

/-- Witness for C2 at a concrete environment where every attempt times
out: 3 attempts, waits of 1000ms then 2000ms, and a final WeatherAPIError
carrying attempt count 3 and the last message. -/
theorem fetchWeatherData_retry_schedule_witness :
    (fetchWeatherData (fun _ => .network "timeout of 15000ms exceeded")).attempts = 3 ∧
    (fetchWeatherData (fun _ => .network "timeout of 15000ms exceeded")).waits = [1000, 2000] ∧
    (fetchWeatherData (fun _ => .network "timeout of 15000ms exceeded")).result =
      .error (.weatherAPIError
        "Failed to fetch weather data after 3 attempts: timeout of 15000ms exceeded"
        none (some 3)) := by
  have h := fetchWeatherData_retry_schedule.2 (fun _ => .network "timeout of 15000ms exceeded")
    (fun k _ _ => rfl)
  exact ⟨h.1, h.2.1, h.2.2⟩

/-- C3: an attempt that fails with a client-class failure (HTTP status in
400..499, or a 200 response missing the location or current block) aborts
fetchWeatherData immediately: when the first n-1 attempts fail transiently
and attempt n is client-class, exactly n attempts are made, the only waits
are those of the earlier transient failures, and the result is the
client-rejection error; in particular n = 1 gives exactly 1 attempt and no
backoff wait. -/
theorem fetchWeatherData_client_failure_aborts (env : Nat → AxiosOutcome) (n : Nat)
    (hn1 : 1 ≤ n) (hn3 : n ≤ 3)
    (hT : ∀ k, 1 ≤ k → k < n → transient (env k) = true)
    (hC : clientClass (env n) = true) :
    (fetchWeatherData env).result = .error (clientError (env n)) ∧
    (fetchWeatherData env).attempts = n ∧
    (fetchWeatherData env).waits = (List.range (n - 1)).map (fun i => 1000 * (i + 1)) := by
  interval_cases n
  · have e1 := fetchAux_client_abort env 2 1 none hC
    norm_num at e1
    have key : fetchWeatherData env =
        { result := .error (clientError (env 1)), attempts := 1, waits := [] } := by
      show fetchAux env 3 1 none = _
      rw [e1]
    rw [key]
    simp
  · have h1 := hT 1 (by omega) (by omega)
    have e1 := fetchAux_transient_step env 2 1 none h1 (by decide)
    have e2 := fetchAux_client_abort env 1 2 (some (outcomeMessage (env 1))) hC
    norm_num at e1 e2
    have key : fetchWeatherData env =
        { result := .error (clientError (env 2)), attempts := 2, waits := [1000] } := by
      show fetchAux env 3 1 none = _
      rw [e1, e2]
    rw [key]
    simp [List.range_succ]
  · have h1 := hT 1 (by omega) (by omega)
    have h2 := hT 2 (by omega) (by omega)
    have e1 := fetchAux_transient_step env 2 1 none h1 (by decide)
    have e2 := fetchAux_transient_step env 1 2 (some (outcomeMessage (env 1))) h2 (by decide)
    have e3 := fetchAux_client_abort env 0 3 (some (outcomeMessage (env 2))) hC
    norm_num at e1 e2 e3
    have key : fetchWeatherData env =
        { result := .error (clientError (env 3)), attempts := 3, waits := [1000, 2000] } := by
      show fetchAux env 3 1 none = _
      rw [e1, e2, e3]
    rw [key]
    simp [List.range_succ]

/-- Witness for C3: a 401 rejection on attempt 1 makes exactly 1 attempt,
no wait, and aborts with the status-carrying WeatherAPIError. -/
theorem fetchWeatherData_client_failure_aborts_witness :
    (fetchWeatherData (fun _ => .httpStatus 401 "Request failed with status code 401")).result =
      .error (.weatherAPIError
        "Failed to fetch weather data: Request failed with status code 401" (some 401) none) ∧
    (fetchWeatherData (fun _ => .httpStatus 401 "Request failed with status code 401")).attempts = 1 ∧
    (fetchWeatherData (fun _ => .httpStatus 401 "Request failed with status code 401")).waits = [] := by
  have h := fetchWeatherData_client_failure_aborts
    (fun _ => .httpStatus 401 "Request failed with status code 401") 1
    (by decide) (by decide)
    (fun k hk1 hk2 => absurd (lt_of_le_of_lt hk1 hk2) (lt_irrefl 1)) (by decide)
  exact ⟨h.1, h.2.1, h.2.2⟩

theorem matchesTwoUpper_iff (s : String) :
    matchesTwoUpper s = true ↔ (s.length = 2 ∧ ∀ c ∈ s.data, 'A' ≤ c ∧ c ≤ 'Z') := by
  simp [matchesTwoUpper, isUpperLetter, List.all_eq_true]

theorem matchesFiveDigits_iff (s : String) :
    matchesFiveDigits s = true ↔ (s.length = 5 ∧ ∀ c ∈ s.data, c.isDigit = true) := by
  simp [matchesFiveDigits, List.all_eq_true]

theorem streetConstraints_eq_nil (s : String) : streetConstraints s = [] ↔ SpecStreetOK s := by
  by_cases h : s = "" <;> simp [streetConstraints, SpecStreetOK, h]

theorem cityConstraints_eq_nil (s : String) : cityConstraints s = [] ↔ SpecCityOK s := by
  by_cases h : s = "" <;> simp [cityConstraints, SpecCityOK, h]

theorem stateConstraints_eq_nil (s : String) :
    stateConstraints s = [] ↔ SpecStateOK s := by
  unfold SpecStateOK
  rw [← matchesTwoUpper_iff]
  by_cases h2 : s.length = 2
  · by_cases hm : matchesTwoUpper s <;> simp [stateConstraints, h2, hm]
  · have hm : matchesTwoUpper s = false := by simp [matchesTwoUpper, h2]
    simp [stateConstraints, h2, hm]

theorem zipConstraints_eq_nil (s : String) :
    zipConstraints s = [] ↔ SpecZipOK s := by
  unfold SpecZipOK
  rw [← matchesFiveDigits_iff]
  by_cases h5 : s.length = 5
  · by_cases hm : matchesFiveDigits s <;> simp [zipConstraints, h5, hm]
  · have hm : matchesFiveDigits s = false := by simp [matchesFiveDigits, h5]
    simp [zipConstraints, h5, hm]

instance (s : String) : Decidable (SpecStreetOK s) :=
  decidable_of_iff _ (streetConstraints_eq_nil s)

instance (s : String) : Decidable (SpecCityOK s) :=
  decidable_of_iff _ (cityConstraints_eq_nil s)

instance (s : String) : Decidable (SpecStateOK s) :=
  decidable_of_iff _ (stateConstraints_eq_nil s)

instance (s : String) : Decidable (SpecZipOK s) :=
  decidable_of_iff _ (zipConstraints_eq_nil s)

instance (input : CreatePropertyInput) : Decidable (SpecValidInput input) :=
  inferInstanceAs (Decidable (SpecStreetOK input.street ∧ SpecCityOK input.city ∧
    SpecStateOK input.state ∧ SpecZipOK input.zipCode))

theorem fieldErrors_eq_nil_iff (input : CreatePropertyInput) :
    fieldErrors input = [] ↔ SpecValidInput input := by
  have seg : ∀ (P : Prop) (inst : Decidable P) (e : ValidationErrorDetail),
      ((@ite _ P inst ([] : List ValidationErrorDetail) [e]) = []) ↔ P := by
    intro P inst e
    by_cases h : P <;> simp [h]
  unfold fieldErrors SpecValidInput
  simp only [List.append_eq_nil, seg, streetConstraints_eq_nil, cityConstraints_eq_nil,
    stateConstraints_eq_nil, zipConstraints_eq_nil]
  tauto

theorem specValidInput_of (input : CreatePropertyInput)
    (h1 : input.street ≠ "") (h2 : input.city ≠ "")
    (h3 : matchesTwoUpper input.state = true) (h4 : matchesFiveDigits input.zipCode = true) :
    SpecValidInput input :=
  ⟨h1, h2, (matchesTwoUpper_iff _).mp h3, (matchesFiveDigits_iff _).mp h4⟩

/-- C1: when the injected weather client (the retrying fetch, for any
environment and hence after any number of attempts up to 3) fails, a
createProperty on valid input propagates exactly that error, issues no
repository create call and leaves the store unchanged. -/
theorem createProperty_aborts_on_weather_failure
    (env : Nat → AxiosOutcome) (store : List Property) (input : CreatePropertyInput)
    (newId : String) (now : Nat) (e : SvcError)
    (hvalid : SpecValidInput input)
    (hfail : (fetchWeatherData env).result = .error e) :
    (createProperty (fun _ => (fetchWeatherData env).result) store input newId now).result =
      .error e ∧
    (createProperty (fun _ => (fetchWeatherData env).result) store input newId now).store =
      store ∧
    (createProperty (fun _ => (fetchWeatherData env).result) store input newId now).createCalls =
      0 := by
  have hfe : fieldErrors input = [] := (fieldErrors_eq_nil_iff input).mpr hvalid
  simp [createProperty, validateInput, hfe, hfail]

/-- Witness for C1: with every attempt timing out, create propagates the
exhaustion error and the empty store stays empty with no create call. -/
theorem createProperty_aborts_on_weather_failure_witness :
    (createProperty (fun _ => (fetchWeatherData (fun _ => .network "boom")).result)
        [] ⟨"A", "B", "AZ", "85268"⟩ "id1" 5).result =
      .error (.weatherAPIError "Failed to fetch weather data after 3 attempts: boom"
        none (some 3)) ∧
    (createProperty (fun _ => (fetchWeatherData (fun _ => .network "boom")).result)
        [] ⟨"A", "B", "AZ", "85268"⟩ "id1" 5).store = [] ∧
    (createProperty (fun _ => (fetchWeatherData (fun _ => .network "boom")).result)
        [] ⟨"A", "B", "AZ", "85268"⟩ "id1" 5).createCalls = 0 :=
  createProperty_aborts_on_weather_failure (fun _ => .network "boom")
    [] ⟨"A", "B", "AZ", "85268"⟩ "id1" 5
    (.weatherAPIError "Failed to fetch weather data after 3 attempts: boom" none (some 3))
    (specValidInput_of _ (by decide) (by decide) (by decide) (by decide)) rfl

/-- C8: for every valid input, the one address string sent to the weather
client is exactly the concatenation street ++ ", " ++ city ++ ", " ++
state ++ " " ++ zipCode of the unmodified input fields. -/
theorem createProperty_sends_exact_address
    (weather : String → Except SvcError ParsedWeather) (store : List Property)
    (input : CreatePropertyInput) (newId : String) (now : Nat)
    (hvalid : SpecValidInput input) :
    (createProperty weather store input newId now).weatherCalls =
      [input.street ++ ", " ++ input.city ++ ", " ++ input.state ++ " " ++ input.zipCode] := by
  have hfe : fieldErrors input = [] := (fieldErrors_eq_nil_iff input).mpr hvalid
  cases hw : weather (buildFullAddress input) <;>
    simp only [buildFullAddress] at hw <;>
    simp [createProperty, validateInput, hfe, buildFullAddress, hw]

/-- Witness for C8 on the spec section 8 example address. -/
theorem createProperty_sends_exact_address_witness :
    (createProperty (fun _ => .error (.genericError "x")) []
        ⟨"15528 E Golden Eagle Blvd", "Fountain Hills", "AZ", "85268"⟩ "id1" 5).weatherCalls =
      ["15528 E Golden Eagle Blvd, Fountain Hills, AZ 85268"] :=
  createProperty_sends_exact_address (fun _ => .error (.genericError "x")) []
    ⟨"15528 E Golden Eagle Blvd", "Fountain Hills", "AZ", "85268"⟩ "id1" 5
    (specValidInput_of _ (by decide) (by decide) (by decide) (by decide))


theorem makeAPIRequest_not_validation (env : Nat → AxiosOutcome) (attempt : Nat)
    (msg : String) (d : List ValidationErrorDetail) :
    makeAPIRequest env attempt ≠ .error (.validationError msg d) := by
  unfold makeAPIRequest
  cases env attempt with
  | ok resp =>
      obtain ⟨l, c⟩ := resp
      cases l <;> cases c <;> simp
  | httpStatus s m => simp
  | network m => simp
  | other m => simp

theorem shouldStopRetrying_not_validation (e : SvcError) (msg : String)
    (d : List ValidationErrorDetail) :
    shouldStopRetrying e ≠ .error (.validationError msg d) := by
  cases e with
  | axiosError m st =>
      cases st with
      | none => simp [shouldStopRetrying]
      | some s =>
          simp only [shouldStopRetrying]
          split <;> simp
  | validationError m dd => simp [shouldStopRetrying]
  | notFoundError m => simp [shouldStopRetrying]
  | weatherAPIError m sc a => simp [shouldStopRetrying]
  | genericError m => simp [shouldStopRetrying]

theorem fetchAux_result_not_validation (env : Nat → AxiosOutcome) :
    ∀ (r attempt : Nat) (le : Option String) (msg : String) (d : List ValidationErrorDetail),
      (fetchAux env r attempt le).result ≠ .error (.validationError msg d) := by
  intro r
  induction r with
  | zero => intro attempt le msg d; simp [fetchAux]
  | succ n ih =>
      intro attempt le msg d
      unfold fetchAux
      cases hreq : makeAPIRequest env attempt with
      | ok lc => simp
      | error e =>
          cases hstop : shouldStopRetrying e with
          | error e2 =>
              have he2 : e2 ≠ .validationError msg d := by
                intro h
                exact shouldStopRetrying_not_validation e msg d (by rw [hstop, h])
              simp [hstop, he2]
          | ok b =>
              cases b with
              | true =>
                  have he : e ≠ .validationError msg d := by
                    intro h
                    exact makeAPIRequest_not_validation env attempt msg d (by rw [hreq, h])
                  simp [hstop, he]
              | false =>
                  by_cases hlt : attempt < maxRetries <;> simp [hstop, hlt, ih]

theorem fetchWeatherData_result_not_validation (env : Nat → AxiosOutcome) (msg : String)
    (d : List ValidationErrorDetail) :
    (fetchWeatherData env).result ≠ .error (.validationError msg d) :=
  fetchAux_result_not_validation env maxRetries 1 none msg d

theorem fieldErrors_map_property (input : CreatePropertyInput) :
    (fieldErrors input).map (fun x => x.property) =
      (if input.street = "" then ["street"] else []) ++
      (if input.city = "" then ["city"] else []) ++
      (if SpecStateOK input.state then [] else ["state"]) ++
      (if SpecZipOK input.zipCode then [] else ["zipCode"]) := by
  by_cases h1 : input.street = "" <;> by_cases h2 : input.city = "" <;>
    by_cases h3 : SpecStateOK input.state <;> by_cases h4 : SpecZipOK input.zipCode <;>
    simp [fieldErrors, h1, h2, h3, h4, streetConstraints_eq_nil, cityConstraints_eq_nil,
      stateConstraints_eq_nil, zipConstraints_eq_nil, SpecStreetOK, SpecCityOK]

/-- C4: createProperty fails with a ValidationError exactly when some input
field violates its rule (street non-empty, city non-empty, state exactly 2
uppercase ASCII letters, zipCode exactly 5 ASCII digits); in that case the
error details name every violated field (not only the first), the weather
client is never invoked, no repository create is issued, and the store is
unchanged. -/
theorem createProperty_validation_gate
    (env : Nat → AxiosOutcome) (store : List Property) (input : CreatePropertyInput)
    (newId : String) (now : Nat) :
    ((∃ msg d,
        (createProperty (fun _ => (fetchWeatherData env).result) store input newId now).result =
          .error (.validationError msg d)) ↔ ¬ SpecValidInput input) ∧
    (∀ msg d,
      (createProperty (fun _ => (fetchWeatherData env).result) store input newId now).result =
        .error (.validationError msg d) →
      (createProperty (fun _ => (fetchWeatherData env).result) store input newId
          now).weatherCalls = [] ∧
      (createProperty (fun _ => (fetchWeatherData env).result) store input newId now).store =
        store ∧
      (createProperty (fun _ => (fetchWeatherData env).result) store input newId
          now).createCalls = 0 ∧
      d.map (fun x => x.property) =
        (if input.street = "" then ["street"] else []) ++
        (if input.city = "" then ["city"] else []) ++
        (if SpecStateOK input.state then [] else ["state"]) ++
        (if SpecZipOK input.zipCode then [] else ["zipCode"])) := by
  by_cases hv : SpecValidInput input
  · have hfe : fieldErrors input = [] := (fieldErrors_eq_nil_iff input).mpr hv
    have hnv : ∀ msg d,
        (createProperty (fun _ => (fetchWeatherData env).result) store input newId
          now).result ≠ .error (.validationError msg d) := by
      intro msg d
      cases hres : (fetchWeatherData env).result with
      | error e =>
          simp only [createProperty, validateInput, hfe, if_pos, hres]
          intro hEq
          have he : e = .validationError msg d := by injection hEq
          exact fetchWeatherData_result_not_validation env msg d (by rw [hres, he])
      | ok pw => simp [createProperty, validateInput, hfe, hres]
    constructor
    · constructor
      · rintro ⟨msg, d, hres⟩
        exact (hnv msg d hres).elim
      · intro h
        exact (h hv).elim
    · intro msg d hres
      exact (hnv msg d hres).elim
  · have hfe : fieldErrors input ≠ [] := fun h => hv ((fieldErrors_eq_nil_iff input).mp h)
    have hc : createProperty (fun _ => (fetchWeatherData env).result) store input newId now =
        { result := .error (.validationError ("Validation failed: " ++
            String.intercalate "; " ((fieldErrors input).map
              (fun err => String.intercalate ", " (err.constraints.map Prod.snd))))
            (fieldErrors input))
          store := store
          weatherCalls := []
          createCalls := 0 } := by
      simp [createProperty, validateInput, hfe]
    constructor
    · constructor
      · intro _
        exact hv
      · intro _
        exact ⟨_, _, by rw [hc]⟩
    · intro msg d hres
      rw [hc] at hres
      simp only [Except.error.injEq, SvcError.validationError.injEq] at hres
      refine ⟨by rw [hc], by rw [hc], by rw [hc], ?_⟩
      rw [← hres.2]
      exact fieldErrors_map_property input

/-- Witness for C4: an input with blank street and a 4-digit zip is
rejected with a ValidationError naming exactly the two violated fields,
with no weather call, no create call, and an unchanged store. -/
theorem createProperty_validation_gate_witness :
    ¬ SpecValidInput ⟨"", "Phoenix", "AZ", "8526"⟩ ∧
    (∃ msg d,
      (createProperty (fun _ => (fetchWeatherData (fun _ => .network "x")).result) []
          ⟨"", "Phoenix", "AZ", "8526"⟩ "id" 0).result = .error (.validationError msg d)) := by
  have h := createProperty_validation_gate (fun _ => .network "x") []
    ⟨"", "Phoenix", "AZ", "8526"⟩ "id" 0
  exact ⟨by decide, h.1.mpr (by decide)⟩


/-- C6: getPropertyById and deleteProperty reject an empty or blank id with
a ValidationError before any repository lookup; for a non-blank id absent
from the store both fail with NotFoundError, deleteProperty having
existence-checked via findById first, so no delete is issued and the store
(hence its record count) is unchanged. -/
theorem id_validation_and_not_found (store : List Property) (id : String) :
    (jsTrim id = "" →
      getPropertyById store id =
        { result := .error (.validationError "Property ID is required" []), lookups := [] } ∧
      deleteProperty store id =
        { result := .error (.validationError "Property ID is required" []), store := store,
          lookups := [], deletes := [] }) ∧
    (jsTrim id ≠ "" → (∀ p ∈ store, p.id ≠ id) →
      (getPropertyById store id).result =
        .error (.notFoundError ("Property with ID " ++ id ++ " not found")) ∧
      (getPropertyById store id).lookups = [id] ∧
      (deleteProperty store id).result =
        .error (.notFoundError ("Property with ID " ++ id ++ " not found")) ∧
      (deleteProperty store id).store = store ∧
      (deleteProperty store id).lookups = [id] ∧
      (deleteProperty store id).deletes = []) := by
  constructor
  · intro hblank
    have hval : validateId id = .error (.validationError "Property ID is required" []) := by
      simp [validateId, hblank]
    constructor <;> simp [getPropertyById, deleteProperty, hval]
  · intro hnb habs
    have hne : ¬(id = "" ∨ jsTrim id = "") := by
      rintro (h | h)
      · exact hnb (by rw [h]; decide)
      · exact hnb h
    have hval : validateId id = .ok () := by simp [validateId, hne]
    have hfind : repoFindById store id = none := by
      apply List.find?_eq_none.mpr
      intro p hp
      simpa using habs p hp
    simp [getPropertyById, deleteProperty, hval, hfind]

/-- Witness for C6: a whitespace id is rejected without a lookup, and
deleting a missing id reports NotFound leaving the empty store empty. -/
theorem id_validation_and_not_found_witness :
    (getPropertyById ([] : List Property) "  ").result =
      .error (.validationError "Property ID is required" []) ∧
    (getPropertyById ([] : List Property) "  ").lookups = [] ∧
    (deleteProperty ([] : List Property) "missing").result =
      .error (.notFoundError "Property with ID missing not found") ∧
    (deleteProperty ([] : List Property) "missing").store = [] ∧
    (deleteProperty ([] : List Property) "missing").deletes = [] := by
  have h1 := (id_validation_and_not_found [] "  ").1 (by decide)
  have h2 := (id_validation_and_not_found [] "missing").2 (by decide)
    (by intro p hp; cases hp)
  exact ⟨by rw [h1.1], by rw [h1.1], h2.2.2.1, h2.2.2.2.1, h2.2.2.2.2.2⟩

/-- C9: a filter field provided as the empty string is ignored by findAll
exactly as if it were absent, for every store, sort, and setting of the
other fields. -/
theorem findAll_empty_filter_field_unconstrained (store : List Property)
    (f : PropertyFilter) (sort : Option PropertySort) :
    findAll store (some { f with city := some "" }) sort =
      findAll store (some { f with city := none }) sort ∧
    findAll store (some { f with state := some "" }) sort =
      findAll store (some { f with state := none }) sort ∧
    findAll store (some { f with zipCode := some "" }) sort =
      findAll store (some { f with zipCode := none }) sort := by
  have hc : matchesFilter (some { f with city := some "" }) =
      matchesFilter (some { f with city := none }) := by
    funext p
    simp [matchesFilter]
  have hs : matchesFilter (some { f with state := some "" }) =
      matchesFilter (some { f with state := none }) := by
    funext p
    simp [matchesFilter]
  have hz : matchesFilter (some { f with zipCode := some "" }) =
      matchesFilter (some { f with zipCode := none }) := by
    funext p
    simp [matchesFilter]
  refine ⟨?_, ?_, ?_⟩ <;> simp only [findAll, hc, hs, hz]

theorem createProperty_store_mem (weather : String → Except SvcError ParsedWeather)
    (store : List Property) (input : CreatePropertyInput) (newId : String) (now : Nat)
    (p : Property) (hp : p ∈ (createProperty weather store input newId now).store) :
    p ∈ store ∨
      ((∃ wd, p.weatherData = some wd) ∧ (∃ l, p.lat = some l) ∧ (∃ lo, p.long = some lo)) := by
  cases hval : validateInput input with
  | error e =>
      simp [createProperty, hval] at hp
      exact Or.inl hp
  | ok u =>
      cases hw : weather (buildFullAddress input) with
      | error e =>
          simp [createProperty, hval, hw] at hp
          exact Or.inl hp
      | ok pw =>
          simp [createProperty, hval, hw, repoCreate] at hp
          rcases hp with hp | hp
          · exact Or.inl hp
          · subst hp
            exact Or.inr ⟨⟨_, rfl⟩, ⟨_, rfl⟩, ⟨_, rfl⟩⟩

theorem deleteProperty_store_mem (store : List Property) (id : String) (p : Property)
    (hp : p ∈ (deleteProperty store id).store) : p ∈ store := by
  cases hval : validateId id with
  | error e =>
      simpa [deleteProperty, hval] using hp
  | ok u =>
      cases hfind : repoFindById store id with
      | none => simpa [deleteProperty, hval, hfind] using hp
      | some q =>
          simp [deleteProperty, hval, hfind, repoDelete] at hp
          exact hp.1

/-- C5: after any sequence of create/delete service operations starting
from the empty store, every stored record has a non-null weatherSnapshot
exactly when it has non-null latitude and longitude: the three are
committed together by a single insert or not at all. -/
theorem no_partial_records (ops : List StoreOp) (p : Property)
    (hp : p ∈ runOps [] ops) :
    (p.weatherData ≠ none ↔ p.lat ≠ none) ∧ (p.weatherData ≠ none ↔ p.long ≠ none) := by
  suffices h : ∀ (l : List StoreOp) (store : List Property),
      (∀ q ∈ store,
        (q.weatherData ≠ none ↔ q.lat ≠ none) ∧ (q.weatherData ≠ none ↔ q.long ≠ none)) →
      ∀ q ∈ runOps store l,
        (q.weatherData ≠ none ↔ q.lat ≠ none) ∧ (q.weatherData ≠ none ↔ q.long ≠ none) by
    exact h ops [] (by simp) p hp
  intro l
  induction l with
  | nil =>
      intro store hstore q hq
      exact hstore q hq
  | cons op rest ih =>
      intro store hstore q hq
      have hq2 : q ∈ runOps (applyOp store op) rest := hq
      apply ih (applyOp store op) ?_ q hq2
      intro x hx
      cases op with
      | create w input newId now =>
          rcases createProperty_store_mem w store input newId now x hx with hmem | hfull
          · exact hstore x hmem
          · rcases hfull with ⟨⟨wd, hwd⟩, ⟨lt, hlt⟩, ⟨lo, hlo⟩⟩
            constructor <;> simp [hwd, hlt, hlo]
      | delete id =>
          exact hstore x (deleteProperty_store_mem store id x hx)

/-- Witness for C5: one successful create on the empty store yields a
store whose single record satisfies the paired-fields invariant. -/
theorem no_partial_records_witness :
    (Property.mk "id1" "A" "B" "AZ" "85268"
        (some ⟨75, ["Sunny"], 35, 5, "05:30 PM", 73⟩)
        (some (JSNum.num 33)) (some (JSNum.num 42)) 9) ∈
      runOps []
        [StoreOp.create
          (fun _ => .ok ⟨⟨75, ["Sunny"], 35, 5, "05:30 PM", 73⟩, JSNum.num 33, JSNum.num 42⟩)
          ⟨"A", "B", "AZ", "85268"⟩ "id1" 9] ∧
    ((Property.mk "id1" "A" "B" "AZ" "85268"
        (some ⟨75, ["Sunny"], 35, 5, "05:30 PM", 73⟩)
        (some (JSNum.num 33)) (some (JSNum.num 42)) 9).weatherData ≠ none ↔
      (Property.mk "id1" "A" "B" "AZ" "85268"
        (some ⟨75, ["Sunny"], 35, 5, "05:30 PM", 73⟩)
        (some (JSNum.num 33)) (some (JSNum.num 42)) 9).lat ≠ none) := by
  have hmem : (Property.mk "id1" "A" "B" "AZ" "85268"
      (some ⟨75, ["Sunny"], 35, 5, "05:30 PM", 73⟩)
      (some (JSNum.num 33)) (some (JSNum.num 42)) 9) ∈
      runOps []
        [StoreOp.create
          (fun _ => .ok ⟨⟨75, ["Sunny"], 35, 5, "05:30 PM", 73⟩, JSNum.num 33, JSNum.num 42⟩)
          ⟨"A", "B", "AZ", "85268"⟩ "id1" 9] := by
    decide
  have h := no_partial_records _ _ hmem
  exact ⟨hmem, h.1⟩


theorem parseFloatChars_nan_iff (sgn : Int) (rest : List Char) :
    parseFloatChars sgn rest = JSNum.nan ↔ noNumericStart rest = true := by
  by_cases hinf : rest.take 8 = infinityLit
  · constructor
    · intro h
      unfold parseFloatChars at h
      rw [if_pos hinf] at h
      by_cases hsgn : sgn < 0 <;> simp [hsgn] at h
    · intro h
      simp [noNumericStart, hinf] at h
  · have hbody : parseFloatChars sgn rest = JSNum.nan ↔
        ((takeDigits rest).1 = [] ∧ (fracDigits (takeDigits rest).2).1 = []) := by
      unfold parseFloatChars
      rw [if_neg hinf]
      by_cases hc : (takeDigits rest).1 = [] ∧ (fracDigits (takeDigits rest).2).1 = [] <;>
        simp [hc]
    rw [hbody]
    cases rest with
    | nil => simp [takeDigits, fracDigits, noNumericStart, infinityLit]
    | cons c r =>
        by_cases hd : c.isDigit
        · simp [takeDigits, hd, noNumericStart, hinf]
        · by_cases hdot : c = '.'
          · subst hdot
            cases r with
            | nil => simp_all [takeDigits, fracDigits, noNumericStart]
            | cons c2 r2 =>
                by_cases hd2 : c2.isDigit <;>
                  simp_all [takeDigits, fracDigits, noNumericStart]
          · simp_all [takeDigits, fracDigits, noNumericStart]

theorem parseFloat_nan_iff (s : String) :
    parseFloat s = JSNum.nan ↔ NoNumericStart s = true := by
  simp only [parseFloat, NoNumericStart]
  exact parseFloatChars_nan_iff _ _

/-- Counterexample to C10 as stated: a lat string that is not a decimal
number need not parse to NaN.  The string 12abc is not a decimal number
as a whole, yet parseFloat yields its finite numeric prefix (12), not NaN,
and that value is what parseResponse hands to the pipeline; likewise the
digit-free string Infinity is not a decimal number but parses to positive
infinity, not NaN. -/
theorem response_parsing_nan_counterexample :
    isWholeDecimalNumber "12abc" = false ∧
    parseFloat "12abc" ≠ JSNum.nan ∧
    (∃ q : Rat, parseFloat "12abc" = JSNum.num q) ∧
    isWholeDecimalNumber "Infinity" = false ∧
    parseFloat "Infinity" = JSNum.posInf ∧
    NoNumericStart "12abc" = false ∧
    (parseResponse ⟨"12abc", "0"⟩ ⟨"", 0, [], 0, 0, 0⟩).lat = parseFloat "12abc" :=
  ⟨by decide, by decide, ⟨_, rfl⟩, by decide, by decide, by decide, rfl⟩

/-- C10 (amended): a 200 response containing both blocks always parses:
the fetch succeeds on attempt 1 whatever the field values are, and the
resulting coordinates are persisted in the created record rather than
rejected; a lat or lon string parses to NaN exactly when it has no start
of a number — after optional whitespace and sign, neither a leading digit,
nor a dot followed by a digit, nor the Infinity literal — and that NaN is
persisted like any other value. -/
theorem response_parsing_total_and_nan_persisted
    (env : Nat → AxiosOutcome) (loc : WeatherstackLocation) (cur : WeatherstackCurrent)
    (store : List Property) (input : CreatePropertyInput) (newId : String) (now : Nat)
    (henv : env 1 = .ok ⟨some loc, some cur⟩)
    (hvalid : SpecValidInput input) :
    (fetchWeatherData env).result = .ok (parseResponse loc cur) ∧
    (fetchWeatherData env).attempts = 1 ∧
    (∃ p : Property,
      (createProperty (fun _ => (fetchWeatherData env).result) store input newId now).result =
        .ok p ∧
      (createProperty (fun _ => (fetchWeatherData env).result) store input newId now).store =
        store ++ [p] ∧
      p.lat = some (parseFloat loc.lat) ∧
      p.long = some (parseFloat loc.lon) ∧
      p.weatherData = some ⟨cur.temperature, cur.weather_descriptions, cur.humidity,
        cur.wind_speed, cur.observation_time, cur.feelslike⟩) ∧
    (parseFloat loc.lat = JSNum.nan ↔ NoNumericStart loc.lat = true) ∧
    (parseFloat loc.lon = JSNum.nan ↔ NoNumericStart loc.lon = true) := by
  have hfetch : fetchWeatherData env =
      { result := .ok (parseResponse loc cur), attempts := 1, waits := [] } := by
    show fetchAux env 3 1 none = _
    rw [show (3 : Nat) = 2 + 1 from rfl]
    unfold fetchAux
    simp [makeAPIRequest, henv]
  have hfe : fieldErrors input = [] := (fieldErrors_eq_nil_iff input).mpr hvalid
  refine ⟨by rw [hfetch], by rw [hfetch], ?_, parseFloat_nan_iff loc.lat,
    parseFloat_nan_iff loc.lon⟩
  refine ⟨Property.mk newId input.street input.city input.state input.zipCode
    (some ⟨cur.temperature, cur.weather_descriptions, cur.humidity,
      cur.wind_speed, cur.observation_time, cur.feelslike⟩)
    (some (parseFloat loc.lat)) (some (parseFloat loc.lon)) now, ?_, ?_, rfl, rfl, rfl⟩ <;>
    simp [createProperty, validateInput, hfe, hfetch, repoCreate, buildPropertyData,
      parseResponse]

/-- Witness for the amended C10: a response whose lat field is the
numeric-start-free string abc still succeeds, and the persisted latitude
is NaN. -/
theorem response_parsing_total_witness :
    (fetchWeatherData (fun _ => .ok ⟨some ⟨"abc", "1.5"⟩,
        some ⟨"05:30 PM", 75, ["Sunny"], 5, 35, 73⟩⟩)).result =
      .ok (parseResponse ⟨"abc", "1.5"⟩ ⟨"05:30 PM", 75, ["Sunny"], 5, 35, 73⟩) ∧
    parseFloat "abc" = JSNum.nan ∧
    (∃ p : Property,
      (createProperty
          (fun _ => (fetchWeatherData (fun _ => .ok ⟨some ⟨"abc", "1.5"⟩,
            some ⟨"05:30 PM", 75, ["Sunny"], 5, 35, 73⟩⟩)).result)
          [] ⟨"A", "B", "AZ", "85268"⟩ "id1" 9).result = .ok p ∧
      p.lat = some JSNum.nan) := by
  have h := response_parsing_total_and_nan_persisted
    (fun _ => .ok ⟨some ⟨"abc", "1.5"⟩, some ⟨"05:30 PM", 75, ["Sunny"], 5, 35, 73⟩⟩)
    ⟨"abc", "1.5"⟩ ⟨"05:30 PM", 75, ["Sunny"], 5, 35, 73⟩
    [] ⟨"A", "B", "AZ", "85268"⟩ "id1" 9 rfl
    (specValidInput_of _ (by decide) (by decide) (by decide) (by decide))
  have hnan : parseFloat "abc" = JSNum.nan := h.2.2.2.1.mpr (by decide)
  obtain ⟨p, hres, hst, hlat, hlon, hwd⟩ := h.2.2.1
  exact ⟨h.1, hnan, ⟨p, hres, by rw [hlat, hnan]⟩⟩

theorem matchesFilter_some_iff (f : PropertyFilter) (p : Property) :
    matchesFilter (some f) p = true ↔
      ((∀ c, f.city = some c → c ≠ "" → p.city = c) ∧
       (∀ c, f.state = some c → c ≠ "" → p.state = c) ∧
       (∀ c, f.zipCode = some c → c ≠ "" → p.zipCode = c)) := by
  obtain ⟨oc, os, oz⟩ := f
  have clause : ∀ (o : Option String) (x : String),
      ((match o with
        | some c => if c = "" then true else x == c
        | none => true) = true) ↔ (∀ c, o = some c → c ≠ "" → x = c) := by
    intro o x
    cases o with
    | none => simp
    | some c =>
        by_cases hc : c = "" <;> simp [hc]
  simp only [matchesFilter, Bool.and_eq_true]
  rw [clause oc p.city, clause os p.state, clause oz p.zipCode]
  tauto

theorem findAll_perm_filter (store : List Property) (filter : Option PropertyFilter)
    (sort : Option PropertySort) :
    List.Perm (findAll store filter sort) (store.filter (matchesFilter filter)) := by
  unfold findAll applySorting
  cases sortDirection sort
  · exact List.perm_insertionSort _ _
  · exact List.perm_insertionSort _ _

/-- C7: findAll returns exactly the records of the store satisfying the
conjunction of the provided (non-empty) equality constraints on city,
state and zipCode — characterised by membership and by exact
multiplicities — ordered by createdAt in the requested direction, with
DESC (non-increasing createdAt) as the default when no sort is given. -/
theorem findAll_filter_sort_semantics (store : List Property) (f : PropertyFilter)
    (sort : Option PropertySort) :
    (∀ p : Property,
      p ∈ findAll store (some f) sort ↔
        p ∈ store ∧
        (∀ c, f.city = some c → c ≠ "" → p.city = c) ∧
        (∀ c, f.state = some c → c ≠ "" → p.state = c) ∧
        (∀ c, f.zipCode = some c → c ≠ "" → p.zipCode = c)) ∧
    (∀ p : Property,
      ((∀ c, f.city = some c → c ≠ "" → p.city = c) ∧
       (∀ c, f.state = some c → c ≠ "" → p.state = c) ∧
       (∀ c, f.zipCode = some c → c ≠ "" → p.zipCode = c)) →
      (findAll store (some f) sort).count p = store.count p) ∧
    (∀ p : Property,
      ¬((∀ c, f.city = some c → c ≠ "" → p.city = c) ∧
        (∀ c, f.state = some c → c ≠ "" → p.state = c) ∧
        (∀ c, f.zipCode = some c → c ≠ "" → p.zipCode = c)) →
      (findAll store (some f) sort).count p = 0) ∧
    (sortDirection sort = SortOrder.ASC →
      List.Pairwise (fun a b => a.createdAt ≤ b.createdAt) (findAll store (some f) sort)) ∧
    (sortDirection sort = SortOrder.DESC →
      List.Pairwise (fun a b => b.createdAt ≤ a.createdAt) (findAll store (some f) sort)) ∧
    (sort = none →
      List.Pairwise (fun a b => b.createdAt ≤ a.createdAt) (findAll store (some f) sort)) := by
  have hperm := findAll_perm_filter store (some f) sort
  have hdesc : sortDirection sort = SortOrder.DESC →
      List.Pairwise (fun a b => b.createdAt ≤ a.createdAt) (findAll store (some f) sort) := by
    intro hdir
    have htot : IsTotal Property (fun a b => b.createdAt ≤ a.createdAt) :=
      ⟨fun a b => le_total _ _⟩
    have htr : IsTrans Property (fun a b => b.createdAt ≤ a.createdAt) :=
      ⟨fun a b c h1 h2 => le_trans h2 h1⟩
    unfold findAll applySorting
    rw [hdir]
    exact List.sorted_insertionSort _ _
  refine ⟨?_, ?_, ?_, ?_, hdesc, fun hnone => hdesc (by rw [hnone]; rfl)⟩
  · intro p
    rw [hperm.mem_iff, List.mem_filter, matchesFilter_some_iff]
  · intro p hp
    rw [hperm.count_eq p]
    exact List.count_filter ((matchesFilter_some_iff f p).mpr hp)
  · intro p hp
    rw [hperm.count_eq p, List.count_eq_zero]
    intro hmem
    exact hp ((matchesFilter_some_iff f p).mp (List.mem_filter.mp hmem).2)
  · intro hdir
    have htot : IsTotal Property (fun a b => a.createdAt ≤ b.createdAt) :=
      ⟨fun a b => le_total _ _⟩
    have htr : IsTrans Property (fun a b => a.createdAt ≤ b.createdAt) :=
      ⟨fun a b c h1 h2 => le_trans h1 h2⟩
    unfold findAll applySorting
    rw [hdir]
    exact List.sorted_insertionSort _ _

/-- Witness for C7: with a state filter AZ over a two-record store, the
matching record keeps its multiplicity and the non-matching one is absent,
and the default order is by createdAt descending. -/
theorem findAll_filter_sort_semantics_witness :
    (findAll
        [Property.mk "a" "s" "c" "AZ" "85268" none none none 5,
         Property.mk "b" "s" "c" "CA" "90000" none none none 7]
        (some { city := none, state := some "AZ", zipCode := none }) none).count
      (Property.mk "a" "s" "c" "AZ" "85268" none none none 5) = 1 ∧
    (findAll
        [Property.mk "a" "s" "c" "AZ" "85268" none none none 5,
         Property.mk "b" "s" "c" "CA" "90000" none none none 7]
        (some { city := none, state := some "AZ", zipCode := none }) none).count
      (Property.mk "b" "s" "c" "CA" "90000" none none none 7) = 0 ∧
    List.Pairwise (fun a b : Property => b.createdAt ≤ a.createdAt)
      (findAll
        [Property.mk "a" "s" "c" "AZ" "85268" none none none 5,
         Property.mk "b" "s" "c" "CA" "90000" none none none 7]
        (some { city := none, state := some "AZ", zipCode := none }) none) := by
  have h := findAll_filter_sort_semantics
    [Property.mk "a" "s" "c" "AZ" "85268" none none none 5,
     Property.mk "b" "s" "c" "CA" "90000" none none none 7]
    { city := none, state := some "AZ", zipCode := none } none
  refine ⟨?_, ?_, h.2.2.2.2.2 rfl⟩
  · rw [h.2.1 (Property.mk "a" "s" "c" "AZ" "85268" none none none 5)
      ⟨fun c hc => (nomatch hc), fun c hc hne => by cases hc; rfl, fun c hc => (nomatch hc)⟩]
    decide
  · exact h.2.2.1 (Property.mk "b" "s" "c" "CA" "90000" none none none 7)
      (fun hcond => by have := hcond.2.1 "AZ" rfl (by decide); exact absurd this (by decide))

end WeatherApp
